import Mathlib

/-!
Verification of the LeadGenEngine feasibility-modelling scripts.

Shallow embedding of the pure computational core of
`scripts/smp-update.py`, `scripts/generate-dossier.py` and
`scripts/generate-presurvey-report.py` over exact rational arithmetic
(`ℚ` in place of Python floats, with Python `int(...)` truncation made
explicit).  Persistence, PDF rendering and timestamps are out of scope;
every definition below mirrors a specific function or literal of the
source scripts, named after it.
-/

/-- Python `int(x)` on a real value: truncation toward zero. -/
def pyInt (x : ℚ) : ℤ := if 0 ≤ x then ⌊x⌋ else ⌈x⌉

/-- Python `round(x)` to an integer: round half to even (banker's rounding),
modelled on exact rationals. -/
def pyRoundHalfEven (x : ℚ) : ℤ :=
  if x - ⌊x⌋ < 1/2 then ⌊x⌋
  else if 1/2 < x - ⌊x⌋ then ⌊x⌋ + 1
  else if 2 ∣ ⌊x⌋ then ⌊x⌋ else ⌊x⌋ + 1

/-- Python `round(x, 2)` (used as `round(smp_avg, 2)` in the dossier's
sensitivity section), modelled on exact rationals. -/
def pyRound2 (x : ℚ) : ℚ := (pyRoundHalfEven (x * 100) : ℚ) / 100

/-- Lexicographic comparison of character lists: the semantics of Python's
string `<=` (code-point lexicographic order), used by `sorted(...)` with a
string key. -/
def charsLe : List Char → List Char → Bool
  | [], _ => true
  | _ :: _, [] => false
  | a :: as, b :: bs => if a < b then true else if b < a then false else charsLe as bs

/-- Python string `<=` on month tokens. -/
def monthLe (a b : String) : Bool := charsLe a.data b.data

/-- One record of `smp_history.json`: a monthly System Marginal Price
observation (`{"month": ..., "smp": ..., "source": ...}`).  The audit
timestamps (`created_at`/`updated_at`) stamped by `add_smp_entry` carry no
information used by any computation and are not modelled. -/
structure SmpEntry where
  month : String
  smp : ℚ
  source : String
deriving DecidableEq

/-- The fallback entry returned by `get_latest_smp` on an empty store. -/
def fallbackEntry : SmpEntry := ⟨"unknown", 1/5, "fallback"⟩

/-- Shared helper: `sorted(data, key=lambda x: x["month"], reverse=True)`.
Python's sort is stable and `reverse=True` keeps equal keys in their
original relative order, which is exactly stable `mergeSort` with the
"greater or equal month" comparison. -/
def sortByMonthDesc (data : List SmpEntry) : List SmpEntry :=
  data.mergeSort fun a b => monthLe b.month a.month

/-- CPython `datetime.strptime(month_str, "%Y-%m")` acceptance: the format
compiles to the anchored regex `\d\d\d\d-(1[0-2]|0[1-9]|[1-9])` (whole
string must match), and `datetime` additionally rejects year 0. -/
def strptimeYm : List Char → Bool
  | [y1, y2, y3, y4, '-', m1, m2] =>
      y1.isDigit && y2.isDigit && y3.isDigit && y4.isDigit &&
      !(y1 == '0' && y2 == '0' && y3 == '0' && y4 == '0') &&
      ((m1 == '1' && (m2 == '0' || m2 == '1' || m2 == '2')) ||
       (m1 == '0' && m2.isDigit && !(m2 == '0')))
  | [y1, y2, y3, y4, '-', m1] =>
      y1.isDigit && y2.isDigit && y3.isDigit && y4.isDigit &&
      !(y1 == '0' && y2 == '0' && y3 == '0' && y4 == '0') &&
      (m1.isDigit && !(m1 == '0'))
  | _ => false

/-- Validity of a month token as checked by `add_smp_entry` in
`smp-update.py` (a `datetime.strptime(month_str, "%Y-%m")` that does not
raise). -/
def validMonth (month_str : String) : Bool := strptimeYm month_str.data

/-- The in-place update loop of `add_smp_entry`: replace the first entry
whose month matches (returning `true`), leaving the rest untouched;
`false` when no entry matched. -/
def updateFirst (m : String) (v : ℚ) (src : String) : List SmpEntry → List SmpEntry × Bool
  | [] => ([], false)
  | e :: rest =>
      if e.month = m then (⟨m, v, src⟩ :: rest, true)
      else
        let r := updateFirst m v src rest
        (e :: r.1, r.2)

/-- `add_smp_entry(data, month_str, smp, source)` from `smp-update.py`,
modelled as a state transformer: the first component is the store after
the call (Python mutates `data` in place only after both validations
pass), the second is `some message` when the function raises `ValueError`
and `none` on success. -/
def add_smp_entry (data : List SmpEntry) (month_str : String) (smp : ℚ)
    (source : String) : List SmpEntry × Option String :=
  if validMonth month_str = false then
    (data, some ("Invalid month format: " ++ month_str ++ ". Use YYYY-MM"))
  else if smp < 1/20 ∨ 4/5 < smp then
    (data, some "SMP out of plausible range (0.05-0.80 RM/kWh)")
  else
    let r := updateFirst month_str smp source data
    if r.2 then (r.1, none) else (data ++ [⟨month_str, smp, source⟩], none)

/-- `get_latest_smp(data)` from `smp-update.py`: head of the
month-descending sort, or the fallback record on an empty store. -/
def get_latest_smp (data : List SmpEntry) : SmpEntry :=
  match sortByMonthDesc data with
  | [] => fallbackEntry
  | e :: _ => e

/-- Python `min` over a nonempty list (default value unreachable in use). -/
def listMin : List ℚ → ℚ
  | [] => 0
  | x :: xs => xs.foldl min x

/-- Python `max` over a nonempty list (default value unreachable in use). -/
def listMax : List ℚ → ℚ
  | [] => 0
  | x :: xs => xs.foldl max x

/-- Result shape of `get_smp_stats` in `smp-update.py`.  The Python dict
omits the `latest`/`latest_month`/`values` keys in the empty-input
fallback, hence the `Option`. -/
structure SmpUpdateStats where
  avg : ℚ
  min : ℚ
  max : ℚ
  count : ℕ
  latest : Option ℚ
  latest_month : Option String
  values : List SmpEntry
deriving DecidableEq

/-- `get_smp_stats(data, months)` from `smp-update.py`. -/
def SmpUpdate.get_smp_stats (data : List SmpEntry) (months : ℕ) : SmpUpdateStats :=
  match (sortByMonthDesc data).take months with
  | [] => ⟨1/5, 3/20, 1/4, 0, none, none, []⟩
  | e :: rest =>
      let sorted_data := e :: rest
      let values := sorted_data.map (·.smp)
      ⟨values.sum / values.length, listMin values, listMax values,
       values.length, some e.smp, some e.month, sorted_data⟩

/-- Result shape of `get_smp_stats` in `generate-dossier.py`. -/
structure DossierStats where
  avg : ℚ
  min : ℚ
  max : ℚ
  latest : ℚ
  latest_month : String
  history : List SmpEntry
  count : ℕ
  source : String
deriving DecidableEq

/-- `get_smp_stats(months)` from `generate-dossier.py`, as a function of
the deserialized `smp_history.json` contents (`load_smp_history` sorts the
file month-descending; the stats take the leading `months` entries). -/
def Dossier.get_smp_stats (history : List SmpEntry) (months : ℕ) : DossierStats :=
  match (sortByMonthDesc history).take months with
  | [] => ⟨1/5, 3/20, 1/4, 1/5, "unknown", [], 0, "fallback"⟩
  | e :: rest =>
      let data := e :: rest
      let values := data.map (·.smp)
      let all_estimated := data.all (·.source = "estimated")
      ⟨values.sum / values.length, listMin values, listMax values,
       e.smp, e.month, data, values.length,
       if all_estimated then "estimated" else "singlebuyer"⟩

/-- The facility profile fields of the hardcoded `PROSPECT` dict in
`generate-dossier.py` that feed the financial computations. -/
structure Profile where
  md_kw : ℚ
  size_kwp : ℚ
  annual_gen_kwh : ℚ
  self_consumption_pct : ℚ
  blended_tariff : ℚ
  smp_floor : ℚ
  capex_low : ℚ
  capex_mid : ℚ
  capex_high : ℚ
deriving DecidableEq

/-- The demo facility (`PROSPECT` in `generate-dossier.py`): MD 350 kW,
280 kWp, 364,000 kWh/yr, 80% self-consumption, blended tariff RM 0.334,
default SMP floor RM 0.20, CAPEX 512k/570k/629k. -/
def PROSPECT : Profile :=
  { md_kw := 350, size_kwp := 280, annual_gen_kwh := 364000
    self_consumption_pct := 80, blended_tariff := 334/1000, smp_floor := 1/5
    capex_low := 512000, capex_mid := 570000, capex_high := 629000 }

/-- One row of the savings-model table of `section_financial`. -/
structure SavingsRow where
  self_kwh : ℤ
  exp_kwh : ℚ
  sav : ℚ
  payback : ℚ
deriving DecidableEq

/-- One savings scenario of `section_financial` (`generate-dossier.py`,
lines 1363-1380): `self_f = int(G * f)`, `exp_f = G - self_f`,
`sav_f = self_f * blended_tariff + exp_f * smp_floor`, payback
`capex_mid / sav_f`. -/
def savingsRow (p : Profile) (f : ℚ) : SavingsRow :=
  let selfK : ℤ := pyInt (p.annual_gen_kwh * f)
  let expK : ℚ := p.annual_gen_kwh - (selfK : ℚ)
  let sav : ℚ := (selfK : ℚ) * p.blended_tariff + expK * p.smp_floor
  ⟨selfK, expK, sav, p.capex_mid / sav⟩

/-- The three scenarios (conservative 70% / base 80% / optimistic 90%)
computed by `section_financial`. -/
def section_financial_rows (p : Profile) : List (ℚ × SavingsRow) :=
  [(7/10, savingsRow p (7/10)), (8/10, savingsRow p (8/10)), (9/10, savingsRow p (9/10))]

/-- The annual-savings formula of `build_cashflow_drawing` and
`section_cashflow`:
`annual_gen_kwh * pct/100 * blended_tariff + annual_gen_kwh * (1 - pct/100) * smp_floor`. -/
def annualSavingsCashflow (p : Profile) : ℚ :=
  p.annual_gen_kwh * p.self_consumption_pct / 100 * p.blended_tariff +
    p.annual_gen_kwh * (1 - p.self_consumption_pct / 100) * p.smp_floor

/-- The degradation rate literal `0.005` of `build_cashflow_drawing`. -/
def degradationRate : ℚ := 5/1000

/-- The running `cumulative` variable of `build_cashflow_drawing`: starts
at `-capex_mid`, and year `yr = n+1` adds
`annual_savings * (1 - degradation)^(yr-1)`. -/
def cumulativeCashflow (p : Profile) : ℕ → ℚ
  | 0 => -p.capex_mid
  | n + 1 => cumulativeCashflow p n + annualSavingsCashflow p * (1 - degradationRate) ^ n

/-- The value stored for year `i` in the `points` list of
`build_cashflow_drawing` (the chart plots `cumulative / 1000`). -/
def seriesVal (p : Profile) (i : ℕ) : ℚ := cumulativeCashflow p i / 1000

/-- The `points` list built by the `for yr in range(1, 26)` loop of
`build_cashflow_drawing`, starting from year `yr` with `n` points. -/
def pointsFrom (p : Profile) : ℕ → ℕ → List (ℚ × ℚ)
  | _, 0 => []
  | yr, n + 1 => ((yr : ℚ), seriesVal p yr) :: pointsFrom p (yr + 1) n

/-- The full 26-point (years 0-25) cashflow series of
`build_cashflow_drawing`. -/
def cashflowPoints (p : Profile) : List (ℚ × ℚ) := pointsFrom p 0 26

/-- The breakeven search of `build_cashflow_drawing` (lines 379-387): the
first index `i ≥ 1` with `points[i].y ≥ 0` and `points[i-1].y < 0` yields
`x0 + (-y0) / (y1 - y0) * (x1 - x0)`; `None` when no crossing occurs. -/
def findBreakeven : List (ℚ × ℚ) → Option ℚ
  | (x0, y0) :: (x1, y1) :: rest =>
      if 0 ≤ y1 ∧ y0 < 0 then some (x0 + (-y0) / (y1 - y0) * (x1 - x0))
      else findBreakeven ((x1, y1) :: rest)
  | _ => none

/-- The base-case (80% self-consumption) annual savings, as the spec's
savings model defines it. -/
def baseCaseAnnualSavings (p : Profile) : ℚ :=
  p.annual_gen_kwh * (80/100) * p.blended_tariff +
    p.annual_gen_kwh * (1 - 80/100) * p.smp_floor

/-- The numeric outputs of `section_smp_sensitivity`
(`generate-dossier.py`, lines 1474-1548). -/
structure SensitivityReport where
  self_kwh : ℚ
  export_kwh : ℚ
  self_savings : ℚ
  smp_floor : ℚ
  base_savings : ℚ
  smp_swing : ℚ
  pct_impact : ℚ
  payback_at_min : ℚ
  payback_at_max : ℚ
  payback_delta : ℚ
deriving DecidableEq

/-- `section_smp_sensitivity` of `generate-dossier.py`: the export-risk
figures computed from the profile and the 12-month SMP statistics
(`smp_floor = round(smp_avg, 2)`; `base_savings` is the savings at that
base sensitivity point; `smp_swing = export_kwh * (smp_max - smp_min)`;
`pct_impact = smp_swing / base_savings * 100`). -/
def section_smp_sensitivity (p : Profile) (smp_min smp_max smp_avg : ℚ) :
    SensitivityReport :=
  let self_kwh := p.annual_gen_kwh * p.self_consumption_pct / 100
  let export_kwh := p.annual_gen_kwh * (1 - p.self_consumption_pct / 100)
  let self_savings := self_kwh * p.blended_tariff
  let smp_floor := pyRound2 smp_avg
  let base_savings := self_savings + export_kwh * smp_floor
  let smp_swing := export_kwh * (smp_max - smp_min)
  let pct_impact := smp_swing / base_savings * 100
  let payback_at_min := p.capex_mid / (self_savings + export_kwh * smp_min)
  let payback_at_max := p.capex_mid / (self_savings + export_kwh * smp_max)
  ⟨self_kwh, export_kwh, self_savings, smp_floor, base_savings, smp_swing,
   pct_impact, payback_at_min, payback_at_max, |payback_at_min - payback_at_max|⟩

/-- The constants of the hardcoded oversizing comparison table and
OVERSIZING WARNING paragraph, identical in `section_sizing`
(`generate-dossier.py`, lines 1316-1334) and `build_report`
(`generate-presurvey-report.py`, lines 303-314): a 350 kWp (100% of MD)
system generating 455,000 kWh/yr, exporting 91,000 kWh at SMP ~RM 0.20
instead of displacing the TNB tariff ~RM 0.365, for a stated net value
loss of ~RM 15,000/yr. -/
structure OversizingWarning where
  gen_kwh : ℚ
  export_kwh : ℚ
  smp_rate : ℚ
  tnb_rate : ℚ
  value_loss : ℚ
deriving DecidableEq

/-- The literal figures of the oversizing warning in both scripts. -/
def oversizingWarning : OversizingWarning :=
  ⟨455000, 91000, 1/5, 365/1000, 15000⟩

/-- Oversizing penalty as the spec describes it: in the second scenario,
size equals the capacity cap (100% of MD), generation scales linearly with
size, and the export of that scenario (the generation beyond the
self-consumed share) is priced at the wholesale rate instead of the retail
rate; the value lost per year is that export times the rate difference. -/
def specOversizingPenalty (g md size selfPct wholesale retail : ℚ) : ℚ :=
  let capGen := g * md / size
  let capExport := capGen * (1 - selfPct / 100)
  capExport * (retail - wholesale)

/-- Report tiers of `generate-dossier.py`. -/
inductive Tier | basic | pro | premium
deriving DecidableEq

/-- The report chapters appended to `story` by `build_dossier`. -/
inductive ReportChapter
  | cover | executiveSnapshot | methodology | facilityIntelligence
  | roofIntelligence | layoutConcept | eligibility | sizing | energyFlow
  | loadProfile | financial | cashflow | smpSensitivity | forfeiture
  | carbonEsg | roadmap | strategicRecommendation | disclaimer
deriving DecidableEq

/-- The fixed, ordered chapter list `build_dossier` composes for each tier
(`generate-dossier.py`, lines 1784-1849). -/
def build_dossier_chapters : Tier → List ReportChapter
  | .basic =>
      [.cover, .executiveSnapshot, .eligibility, .roadmap, .disclaimer]
  | .pro =>
      [.cover, .executiveSnapshot, .facilityIntelligence, .eligibility,
       .sizing, .energyFlow, .loadProfile, .financial, .cashflow,
       .smpSensitivity, .forfeiture, .roadmap, .disclaimer]
  | .premium =>
      [.cover, .executiveSnapshot, .methodology, .facilityIntelligence,
       .roofIntelligence, .layoutConcept, .eligibility, .sizing,
       .energyFlow, .loadProfile, .financial, .cashflow, .smpSensitivity,
       .forfeiture, .carbonEsg, .roadmap, .strategicRecommendation,
       .disclaimer]

/-- Set-level strict superset test on chapter lists. -/
def chapterStrictSuperset (big small : List ReportChapter) : Bool :=
  small.all (fun s => s ∈ big) && !(big.all (fun s => s ∈ small))

/-- A one-entry price store used for concrete store evaluations: February
2026 at RM 0.218 (an entry of the default seed series). -/
def store0 : List SmpEntry := [⟨"2026-02", 109/500, "estimated"⟩]

/-- A facility profile identical to the demo facility except for an annual
generation figure (101 kWh) whose 70% share is not an integer, exposing the
`int(...)` truncation in the savings scenarios. -/
def profileGen101 : Profile := { PROSPECT with annual_gen_kwh := 101 }

/-- A facility profile whose base-case annual savings exactly equal its
midpoint CAPEX (12,500 kWh at 80% self-consumption gives RM 3,840/yr), so
the cumulative cashflow reaches exactly zero at year 1. -/
def profileExactBreakeven : Profile :=
  { PROSPECT with annual_gen_kwh := 12500, capex_mid := 3840 }

/-- Claim C7: the statistics operation applied to an empty observation
collection does not error and returns the documented fallback
average 0.20, min 0.15, max 0.25 and count 0 (in both scripts). -/
theorem C7_stats_empty_fallback :
    SmpUpdate.get_smp_stats [] 12 = ⟨1/5, 3/20, 1/4, 0, none, none, []⟩ ∧
    Dossier.get_smp_stats [] 12 = ⟨1/5, 3/20, 1/4, 1/5, "unknown", [], 0, "fallback"⟩ := by
  constructor
  · simp [SmpUpdate.get_smp_stats, sortByMonthDesc]
  · simp [Dossier.get_smp_stats, sortByMonthDesc]

/-- Claim C10: for every list of price observations and window size 12,
the statistics implementation of `smp-update.py` and the one of
`generate-dossier.py` return equal average, min, max and count. -/
theorem C10_stats_agree (data : List SmpEntry) :
    (SmpUpdate.get_smp_stats data 12).avg = (Dossier.get_smp_stats data 12).avg ∧
    (SmpUpdate.get_smp_stats data 12).min = (Dossier.get_smp_stats data 12).min ∧
    (SmpUpdate.get_smp_stats data 12).max = (Dossier.get_smp_stats data 12).max ∧
    (SmpUpdate.get_smp_stats data 12).count = (Dossier.get_smp_stats data 12).count := by
  unfold SmpUpdate.get_smp_stats Dossier.get_smp_stats
  cases h : (sortByMonthDesc data).take 12 <;> simp

/-- Claim C9: the chapter set composed for the premium tier is a strict
superset of the pro set, which is a strict superset of the basic set. -/
theorem C9_tier_strict_supersets :
    chapterStrictSuperset (build_dossier_chapters .pro) (build_dossier_chapters .basic) = true ∧
    chapterStrictSuperset (build_dossier_chapters .premium) (build_dossier_chapters .pro) = true := by
  decide

/-- Claim C8: the sensitivity section reports an overall swing equal to
the base-case exported energy (generation minus the 80% self-consumed
share) times the historical max-min spread, and reports that swing as a
percentage of the section's base-case savings (swing / base savings * 100). -/
theorem C8_sensitivity_swing (p : Profile) (smpMin smpMax smpAvg : ℚ)
    (h80 : p.self_consumption_pct = 80) :
    (section_smp_sensitivity p smpMin smpMax smpAvg).smp_swing =
      (p.annual_gen_kwh - p.annual_gen_kwh * (80/100)) * (smpMax - smpMin) ∧
    (section_smp_sensitivity p smpMin smpMax smpAvg).pct_impact =
      (section_smp_sensitivity p smpMin smpMax smpAvg).smp_swing /
        (section_smp_sensitivity p smpMin smpMax smpAvg).base_savings * 100 := by
  constructor
  · simp only [section_smp_sensitivity, h80]
    ring
  · rfl

/-- Witness for C8 at the demo facility and the fallback statistics. -/
theorem C8_sensitivity_swing_witness :
    (section_smp_sensitivity PROSPECT (3/20) (1/4) (1/5)).smp_swing =
      (PROSPECT.annual_gen_kwh - PROSPECT.annual_gen_kwh * (80/100)) * (1/4 - 3/20) ∧
    (section_smp_sensitivity PROSPECT (3/20) (1/4) (1/5)).pct_impact =
      (section_smp_sensitivity PROSPECT (3/20) (1/4) (1/5)).smp_swing /
        (section_smp_sensitivity PROSPECT (3/20) (1/4) (1/5)).base_savings * 100 :=
  C8_sensitivity_swing PROSPECT (3/20) (1/4) (1/5) rfl

/-- Counterexample for C6: the value loss the reports state (a hardcoded
RM 15,000/yr) differs from the exact savings difference, whether the
retail rate is the TNB figure RM 0.365 quoted in the same warning
(exact difference RM 15,015) or the profile's blended tariff RM 0.334
(exact difference RM 12,194). -/
theorem C6_counterexample :
    oversizingWarning.value_loss ≠
      specOversizingPenalty PROSPECT.annual_gen_kwh PROSPECT.md_kw PROSPECT.size_kwp
        PROSPECT.self_consumption_pct oversizingWarning.smp_rate oversizingWarning.tnb_rate ∧
    oversizingWarning.value_loss ≠
      specOversizingPenalty PROSPECT.annual_gen_kwh PROSPECT.md_kw PROSPECT.size_kwp
        PROSPECT.self_consumption_pct PROSPECT.smp_floor PROSPECT.blended_tariff := by
  constructor <;>
    simp only [oversizingWarning, specOversizingPenalty, PROSPECT] <;>
    norm_num

/-- Claim C6 (amended): the warning's generation and export figures match
linear scaling of generation to 100% of maximum demand at 80%
self-consumption, and the stated annual value loss equals the savings
difference (that export priced at the wholesale rate instead of the quoted
TNB retail rate) rounded to the nearest RM 1,000. -/
theorem C6_amended_rounded_penalty :
    oversizingWarning.gen_kwh =
      PROSPECT.annual_gen_kwh * PROSPECT.md_kw / PROSPECT.size_kwp ∧
    oversizingWarning.export_kwh =
      oversizingWarning.gen_kwh * (1 - PROSPECT.self_consumption_pct / 100) ∧
    oversizingWarning.value_loss =
      (pyRoundHalfEven (specOversizingPenalty PROSPECT.annual_gen_kwh PROSPECT.md_kw
        PROSPECT.size_kwp PROSPECT.self_consumption_pct oversizingWarning.smp_rate
        oversizingWarning.tnb_rate / 1000) : ℚ) * 1000 := by
  refine ⟨by norm_num [oversizingWarning, PROSPECT], by norm_num [oversizingWarning, PROSPECT], ?_⟩
  have h : specOversizingPenalty PROSPECT.annual_gen_kwh PROSPECT.md_kw
      PROSPECT.size_kwp PROSPECT.self_consumption_pct oversizingWarning.smp_rate
      oversizingWarning.tnb_rate = 15015 := by
    simp only [specOversizingPenalty, oversizingWarning, PROSPECT]
    norm_num
  rw [h]
  have hf : pyRoundHalfEven ((15015 : ℚ) / 1000) = 15 := by
    have hfl : ⌊(15015 : ℚ) / 1000⌋ = 15 := by
      rw [Int.floor_eq_iff] <;> norm_num
    simp only [pyRoundHalfEven, hfl]
    norm_num
  rw [hf]
  norm_num [oversizingWarning]

/-- The savings-scenario loop and the cashflow loop agree on the annual
savings once the profile's self-consumption percentage is the base-case
80. -/
theorem annualSavingsCashflow_eq_base (p : Profile)
    (h80 : p.self_consumption_pct = 80) :
    annualSavingsCashflow p = baseCaseAnnualSavings p := by
  simp only [annualSavingsCashflow, baseCaseAnnualSavings, h80]
  ring

/-- The points list of the cashflow chart has one entry per requested
year. -/
theorem pointsFrom_length (p : Profile) : ∀ (n yr : ℕ), (pointsFrom p yr n).length = n := by
  intro n
  induction n with
  | zero => intro yr; rfl
  | succ n ih => intro yr; simp [pointsFrom, ih]

/-- Counterexample for C1: with annual generation 101 kWh the conservative
scenario stores `int(101 * 0.70) = 70` self-consumed kWh, which is not
`101 * 0.70 = 70.7`. -/
theorem C1_counterexample :
    ((savingsRow profileGen101 (7/10)).self_kwh : ℚ) ≠
      profileGen101.annual_gen_kwh * (7/10) ∧
    (savingsRow profileGen101 (7/10)).self_kwh = 70 := by
  have h : (savingsRow profileGen101 (7/10)).self_kwh = 70 := by
    show pyInt (profileGen101.annual_gen_kwh * (7/10)) = 70
    have h101 : profileGen101.annual_gen_kwh = 101 := rfl
    rw [h101, pyInt, if_pos (by norm_num)]
    have : ((101 : ℚ) * (7/10)) = 707/10 := by norm_num
    rw [this]
    rw [Int.floor_eq_iff]
    norm_num
  refine ⟨?_, h⟩
  rw [h]
  have h101 : profileGen101.annual_gen_kwh = 101 := rfl
  rw [h101]
  norm_num

/-- Claim C1 (amended): each scenario of the financial section stores
`selfConsumed = int(G * f)` (truncated, hence `⌊G * f⌋` for the
nonnegative inputs at hand), `exported = G - selfConsumed` so that
exported + selfConsumed = G exactly, `savings = selfConsumed * tariff +
exported * smp`, `payback = capexMid / savings`; for the demo facility the
base case gives savings RM 111,820.8 and a payback that rounds to 5.1
years. -/
theorem C1_savings_scenarios (p : Profile) (f : ℚ)
    (hf : f ∈ [(7 : ℚ)/10, 8/10, 9/10]) :
    ((f, savingsRow p f) ∈ section_financial_rows p ∧
     (savingsRow p f).self_kwh = pyInt (p.annual_gen_kwh * f) ∧
     (savingsRow p f).exp_kwh + ((savingsRow p f).self_kwh : ℚ) = p.annual_gen_kwh ∧
     (savingsRow p f).sav = ((savingsRow p f).self_kwh : ℚ) * p.blended_tariff +
       (savingsRow p f).exp_kwh * p.smp_floor ∧
     (savingsRow p f).payback = p.capex_mid / (savingsRow p f).sav) ∧
    ((savingsRow PROSPECT (8/10)).sav = 559104/5 ∧
     51/10 - 1/20 ≤ (savingsRow PROSPECT (8/10)).payback ∧
     (savingsRow PROSPECT (8/10)).payback < 51/10 + 1/20) := by
  have hself : (savingsRow PROSPECT (8/10)).self_kwh = 291200 := by
    show pyInt (PROSPECT.annual_gen_kwh * (8/10)) = 291200
    have : PROSPECT.annual_gen_kwh * (8/10) = ((291200 : ℤ) : ℚ) := by
      norm_num [PROSPECT]
    rw [pyInt, this, if_pos (by norm_num), Int.floor_intCast]
  have hsav : (savingsRow PROSPECT (8/10)).sav = 559104/5 := by
    show ((pyInt (PROSPECT.annual_gen_kwh * (8/10)) : ℚ)) * PROSPECT.blended_tariff +
        (PROSPECT.annual_gen_kwh - (pyInt (PROSPECT.annual_gen_kwh * (8/10)) : ℚ)) *
          PROSPECT.smp_floor = 559104/5
    rw [show pyInt (PROSPECT.annual_gen_kwh * (8/10)) = 291200 from hself]
    norm_num [PROSPECT]
  have hpay : (savingsRow PROSPECT (8/10)).payback = 2850000/559104 := by
    show PROSPECT.capex_mid / (savingsRow PROSPECT (8/10)).sav = 2850000/559104
    rw [hsav]
    norm_num [PROSPECT]
  refine ⟨⟨?_, rfl, ?_, rfl, rfl⟩, hsav, ?_, ?_⟩
  · simp only [List.mem_cons, List.not_mem_nil, or_false] at hf
    rcases hf with h | h | h <;>
      rw [h] <;> simp [section_financial_rows]
  · show p.annual_gen_kwh - (pyInt (p.annual_gen_kwh * f) : ℚ) +
        (pyInt (p.annual_gen_kwh * f) : ℚ) = p.annual_gen_kwh
    ring
  · rw [hpay]; norm_num
  · rw [hpay]; norm_num

/-- Witness for C1: the amended scenario facts instantiated at the demo
facility with the base-case fraction 0.80. -/
theorem C1_savings_scenarios_witness :
    ((8/10 : ℚ), savingsRow PROSPECT (8/10)) ∈ section_financial_rows PROSPECT ∧
    (savingsRow PROSPECT (8/10)).exp_kwh + ((savingsRow PROSPECT (8/10)).self_kwh : ℚ) =
      PROSPECT.annual_gen_kwh ∧
    (savingsRow PROSPECT (8/10)).sav = 559104/5 ∧
    51/10 - 1/20 ≤ (savingsRow PROSPECT (8/10)).payback ∧
    (savingsRow PROSPECT (8/10)).payback < 51/10 + 1/20 := by
  have h := C1_savings_scenarios PROSPECT (8/10) (by norm_num)
  exact ⟨h.1.1, h.1.2.2.1, h.2.1, h.2.2.1, h.2.2.2⟩

/-- Claim C2: the cashflow series has 26 entries for years 0-25, starts at
minus the midpoint CAPEX, each later entry adds the base-case annual
savings degraded by (1 - 0.005)^(year-1), and the series is non-decreasing
whenever the annual savings are positive. -/
theorem C2_cashflow (p : Profile) (h80 : p.self_consumption_pct = 80) :
    (cashflowPoints p).length = 26 ∧
    cumulativeCashflow p 0 = -p.capex_mid ∧
    (∀ y : ℕ, 1 ≤ y → y ≤ 25 →
      cumulativeCashflow p y = cumulativeCashflow p (y - 1) +
        baseCaseAnnualSavings p * (1 - degradationRate) ^ (y - 1)) ∧
    (0 < baseCaseAnnualSavings p →
      ∀ y : ℕ, y < 25 → cumulativeCashflow p y ≤ cumulativeCashflow p (y + 1)) := by
  refine ⟨pointsFrom_length p 26 0, rfl, ?_, ?_⟩
  · intro y h1 _
    obtain ⟨n, rfl⟩ : ∃ n, y = n + 1 := ⟨y - 1, (Nat.succ_pred_eq_of_pos h1).symm⟩
    simp only [Nat.add_sub_cancel]
    rw [show cumulativeCashflow p (n + 1) = cumulativeCashflow p n +
        annualSavingsCashflow p * (1 - degradationRate) ^ n from rfl,
      annualSavingsCashflow_eq_base p h80]
  · intro hpos y _
    rw [show cumulativeCashflow p (y + 1) = cumulativeCashflow p y +
        annualSavingsCashflow p * (1 - degradationRate) ^ y from rfl,
      annualSavingsCashflow_eq_base p h80]
    have hpow : (0 : ℚ) < (1 - degradationRate) ^ y := by
      apply pow_pos
      norm_num [degradationRate]
    nlinarith

/-- If the breakeven loop finds a value on the tail of the series starting
at year `yr`, there is a first crossing year bracketing it, and the value
is the linear interpolation at that crossing. -/
theorem findBreakeven_pointsFrom_some (p : Profile) :
    ∀ (n yr : ℕ) (b : ℚ), findBreakeven (pointsFrom p yr (n + 1)) = some b →
      ∃ i : ℕ, yr + 1 ≤ i ∧ i ≤ yr + n ∧ seriesVal p (i - 1) < 0 ∧ 0 ≤ seriesVal p i ∧
        b = ((i : ℚ) - 1) + (-(seriesVal p (i - 1))) /
            (seriesVal p i - seriesVal p (i - 1)) := by
  intro n
  induction n with
  | zero =>
      intro yr b h
      simp [pointsFrom, findBreakeven] at h
  | succ n ih =>
      intro yr b h
      rw [show pointsFrom p yr (n + 1 + 1) =
            ((yr : ℚ), seriesVal p yr) ::
              (((yr + 1 : ℕ) : ℚ), seriesVal p (yr + 1)) :: pointsFrom p (yr + 2) n
          from rfl] at h
      rw [findBreakeven] at h
      split at h
      · rename_i hc
        refine ⟨yr + 1, le_refl _, by omega, ?_, hc.1, ?_⟩
        · simpa using hc.2
        · rw [Option.some.injEq] at h
          rw [← h]
          have h1 : ((yr + 1 : ℕ) : ℚ) = (yr : ℚ) + 1 := by push_cast; ring
          simp only [Nat.add_sub_cancel, h1]
          ring
      · have htail : (((yr + 1 : ℕ) : ℚ), seriesVal p (yr + 1)) :: pointsFrom p (yr + 2) n =
            pointsFrom p (yr + 1) (n + 1) := rfl
        rw [htail] at h
        obtain ⟨i, hi1, hi2, hneg, hpos, hb⟩ := ih (yr + 1) b h
        exact ⟨i, by omega, by omega, hneg, hpos, hb⟩

/-- If the breakeven loop finds nothing on the tail of the series starting
at year `yr`, no crossing occurs among those years. -/
theorem findBreakeven_pointsFrom_none (p : Profile) :
    ∀ (n yr : ℕ), findBreakeven (pointsFrom p yr (n + 1)) = none →
      ∀ i : ℕ, yr + 1 ≤ i → i ≤ yr + n →
        ¬(seriesVal p (i - 1) < 0 ∧ 0 ≤ seriesVal p i) := by
  intro n
  induction n with
  | zero => intro yr _ i h1 h2; omega
  | succ n ih =>
      intro yr h i h1 h2
      rw [show pointsFrom p yr (n + 1 + 1) =
            ((yr : ℚ), seriesVal p yr) ::
              (((yr + 1 : ℕ) : ℚ), seriesVal p (yr + 1)) :: pointsFrom p (yr + 2) n
          from rfl] at h
      rw [findBreakeven] at h
      split at h
      · exact absurd h (by simp)
      · rename_i hc
        have htail : (((yr + 1 : ℕ) : ℚ), seriesVal p (yr + 1)) :: pointsFrom p (yr + 2) n =
            pointsFrom p (yr + 1) (n + 1) := rfl
        rw [htail] at h
        rcases Nat.eq_or_lt_of_le h1 with heq | hlt
        · rw [← heq]
          simp only [Nat.add_sub_cancel]
          intro hcontra
          exact hc ⟨hcontra.2, hcontra.1⟩
        · exact ih (yr + 1) h i (by omega) (by omega)

/-- When the first pair of the remaining series already brackets zero, the
loop stops there with the interpolated value. -/
theorem findBreakeven_first_cross (p : Profile) (yr n : ℕ)
    (hc : 0 ≤ seriesVal p (yr + 1) ∧ seriesVal p yr < 0) :
    findBreakeven (pointsFrom p yr (n + 2)) =
      some ((yr : ℚ) + (-(seriesVal p yr)) / (seriesVal p (yr + 1) - seriesVal p yr) *
        (((yr + 1 : ℕ) : ℚ) - (yr : ℚ))) := by
  rw [show pointsFrom p yr (n + 2) =
        ((yr : ℚ), seriesVal p yr) ::
          (((yr + 1 : ℕ) : ℚ), seriesVal p (yr + 1)) :: pointsFrom p (yr + 2) n
      from rfl]
  rw [findBreakeven, if_pos hc]

/-- The cumulative cashflow of the exact-breakeven profile starts at
-3840 and reaches exactly 0 after year 1. -/
theorem exactBreakeven_values :
    seriesVal profileExactBreakeven 0 = -3840/1000 ∧
    seriesVal profileExactBreakeven 1 = 0 := by
  constructor
  · show cumulativeCashflow profileExactBreakeven 0 / 1000 = -3840/1000
    norm_num [cumulativeCashflow, profileExactBreakeven, PROSPECT]
  · show cumulativeCashflow profileExactBreakeven 1 / 1000 = 0
    rw [show cumulativeCashflow profileExactBreakeven 1 =
          cumulativeCashflow profileExactBreakeven 0 +
            annualSavingsCashflow profileExactBreakeven *
              (1 - degradationRate) ^ 0 from rfl]
    norm_num [cumulativeCashflow, annualSavingsCashflow, degradationRate,
      profileExactBreakeven, PROSPECT]

/-- For the exact-breakeven profile the loop reports breakeven at exactly
year 1 (the upper bracketing year). -/
theorem findBreakeven_exactBreakeven :
    findBreakeven (cashflowPoints profileExactBreakeven) = some 1 := by
  obtain ⟨h0, h1⟩ := exactBreakeven_values
  rw [show cashflowPoints profileExactBreakeven =
        pointsFrom profileExactBreakeven 0 (24 + 2) from rfl]
  rw [findBreakeven_first_cross profileExactBreakeven 0 24
      (by rw [show (0 + 1 : ℕ) = 1 from rfl, h0, h1]; norm_num)]
  rw [Option.some.injEq, show (0 + 1 : ℕ) = 1 from rfl, h0, h1]
  norm_num

/-- Counterexample for C3: for the exact-breakeven profile the cashflow
crosses from -3.84 (scaled) at year 0 to exactly 0 at year 1, and the
reported breakeven is exactly 1 — the upper bracketing year itself, not a
value strictly between the two bracketing years. -/
theorem C3_counterexample :
    findBreakeven (cashflowPoints profileExactBreakeven) = some 1 ∧
    seriesVal profileExactBreakeven 0 < 0 ∧
    seriesVal profileExactBreakeven 1 = 0 ∧
    ¬((1 : ℚ) < 1) := by
  obtain ⟨h0, h1⟩ := exactBreakeven_values
  exact ⟨findBreakeven_exactBreakeven, by rw [h0]; norm_num, h1, by norm_num⟩

/-- Claim C3 (amended): a breakeven year is reported iff the cumulative
series crosses from negative to non-negative at some year in 1..25; when
reported it is the linear interpolation between the bracketing years, it
lies strictly above the lower bracketing year and at most at the upper one
(equality exactly when the cumulative hits 0 at an integer year), and the
linear interpolation of the series evaluates to exactly 0 there; with no
crossing the result is `none` rather than an error. -/
theorem C3_breakeven (p : Profile) :
    ((findBreakeven (cashflowPoints p)).isSome = true ↔
      ∃ i : ℕ, 1 ≤ i ∧ i ≤ 25 ∧ seriesVal p (i - 1) < 0 ∧ 0 ≤ seriesVal p i) ∧
    (∀ b : ℚ, findBreakeven (cashflowPoints p) = some b →
      ∃ i : ℕ, 1 ≤ i ∧ i ≤ 25 ∧ seriesVal p (i - 1) < 0 ∧ 0 ≤ seriesVal p i ∧
        b = ((i : ℚ) - 1) + (-(seriesVal p (i - 1))) /
            (seriesVal p i - seriesVal p (i - 1)) ∧
        ((i : ℚ) - 1) < b ∧ b ≤ (i : ℚ) ∧
        seriesVal p (i - 1) + (b - ((i : ℚ) - 1)) *
            (seriesVal p i - seriesVal p (i - 1)) = 0) := by
  have hmain : ∀ b : ℚ, findBreakeven (cashflowPoints p) = some b →
      ∃ i : ℕ, 1 ≤ i ∧ i ≤ 25 ∧ seriesVal p (i - 1) < 0 ∧ 0 ≤ seriesVal p i ∧
        b = ((i : ℚ) - 1) + (-(seriesVal p (i - 1))) /
            (seriesVal p i - seriesVal p (i - 1)) ∧
        ((i : ℚ) - 1) < b ∧ b ≤ (i : ℚ) ∧
        seriesVal p (i - 1) + (b - ((i : ℚ) - 1)) *
            (seriesVal p i - seriesVal p (i - 1)) = 0 := by
    intro b hb
    obtain ⟨i, hi1, hi2, hneg, hpos, hform⟩ :=
      findBreakeven_pointsFrom_some p 25 0 b hb
    have hden : 0 < seriesVal p i - seriesVal p (i - 1) := by linarith
    have hfrac_pos : 0 < (-(seriesVal p (i - 1))) /
        (seriesVal p i - seriesVal p (i - 1)) := by
      apply div_pos (by linarith) hden
    have hfrac_le : (-(seriesVal p (i - 1))) /
        (seriesVal p i - seriesVal p (i - 1)) ≤ 1 := by
      rw [div_le_one hden]
      linarith
    refine ⟨i, by omega, by omega, hneg, hpos, hform, ?_, ?_, ?_⟩
    · rw [hform]; linarith
    · rw [hform]; linarith
    · rw [hform]
      have hne : seriesVal p i - seriesVal p (i - 1) ≠ 0 := ne_of_gt hden
      field_simp
      ring
  refine ⟨⟨?_, ?_⟩, hmain⟩
  · intro h
    obtain ⟨b, hb⟩ := Option.isSome_iff_exists.mp h
    obtain ⟨i, hi1, hi2, hneg, hpos, _⟩ := hmain b hb
    exact ⟨i, hi1, hi2, hneg, hpos⟩
  · intro ⟨i, hi1, hi2, hneg, hpos⟩
    by_contra hnone
    rw [Option.not_isSome_iff_eq_none] at hnone
    exact findBreakeven_pointsFrom_none p 25 0 hnone i (by omega) (by omega) ⟨hneg, hpos⟩

/-- Witness for C3: the amended breakeven facts instantiated at the
exact-breakeven profile, where the reported value is 1. -/
theorem C3_breakeven_witness :
    ∃ i : ℕ, 1 ≤ i ∧ i ≤ 25 ∧ seriesVal profileExactBreakeven (i - 1) < 0 ∧
      0 ≤ seriesVal profileExactBreakeven i ∧
      (1 : ℚ) = ((i : ℚ) - 1) + (-(seriesVal profileExactBreakeven (i - 1))) /
          (seriesVal profileExactBreakeven i - seriesVal profileExactBreakeven (i - 1)) ∧
      ((i : ℚ) - 1) < 1 ∧ (1 : ℚ) ≤ (i : ℚ) ∧
      seriesVal profileExactBreakeven (i - 1) + ((1 : ℚ) - ((i : ℚ) - 1)) *
          (seriesVal profileExactBreakeven i - seriesVal profileExactBreakeven (i - 1)) = 0 :=
  (C3_breakeven profileExactBreakeven).2 1 findBreakeven_exactBreakeven

/-- Unfolding of `charsLe` on two nonempty lists. -/
theorem charsLe_cons_iff (a b : Char) (as bs : List Char) :
    charsLe (a :: as) (b :: bs) = true ↔ a < b ∨ (a = b ∧ charsLe as bs = true) := by
  rw [charsLe]
  by_cases h1 : a < b
  · simp [h1]
  · by_cases h2 : b < a
    · have hne : a ≠ b := fun heq => absurd (heq ▸ h2) (lt_irrefl a)
      simp [h1, h2, hne]
    · have heq : a = b := le_antisymm (not_lt.mp h2) (not_lt.mp h1)
      simp [h1, h2, heq]

/-- `charsLe` is reflexive. -/
theorem charsLe_refl : ∀ as : List Char, charsLe as as = true := by
  intro as
  induction as with
  | nil => rfl
  | cons a as ih => rw [charsLe_cons_iff]; exact Or.inr ⟨rfl, ih⟩

/-- `charsLe` is total. -/
theorem charsLe_total : ∀ as bs : List Char, charsLe as bs = true ∨ charsLe bs as = true := by
  intro as
  induction as with
  | nil => intro bs; exact Or.inl rfl
  | cons a as ih =>
      intro bs
      cases bs with
      | nil => exact Or.inr rfl
      | cons b bs =>
          rcases lt_trichotomy a b with h | h | h
          · exact Or.inl ((charsLe_cons_iff a b as bs).mpr (Or.inl h))
          · rcases ih bs with ht | ht
            · exact Or.inl ((charsLe_cons_iff a b as bs).mpr (Or.inr ⟨h, ht⟩))
            · exact Or.inr ((charsLe_cons_iff b a bs as).mpr (Or.inr ⟨h.symm, ht⟩))
          · exact Or.inr ((charsLe_cons_iff b a bs as).mpr (Or.inl h))

/-- `charsLe` is transitive. -/
theorem charsLe_trans : ∀ as bs cs : List Char,
    charsLe as bs = true → charsLe bs cs = true → charsLe as cs = true := by
  intro as
  induction as with
  | nil => intro bs cs _ _; rfl
  | cons a as ih =>
      intro bs cs hab hbc
      cases bs with
      | nil => exact absurd hab (by simp [charsLe])
      | cons b bs =>
          cases cs with
          | nil => exact absurd hbc (by simp [charsLe])
          | cons c cs =>
              rw [charsLe_cons_iff] at hab hbc ⊢
              rcases hab with h1 | ⟨h1, h1'⟩
              · rcases hbc with h2 | ⟨h2, _⟩
                · exact Or.inl (h1.trans h2)
                · exact Or.inl (h2 ▸ h1)
              · rcases hbc with h2 | ⟨h2, h2'⟩
                · exact Or.inl (h1 ▸ h2)
                · exact Or.inr ⟨h1.trans h2, ih bs cs h1' h2'⟩

/-- `charsLe` is antisymmetric. -/
theorem charsLe_antisymm : ∀ as bs : List Char,
    charsLe as bs = true → charsLe bs as = true → as = bs := by
  intro as
  induction as with
  | nil =>
      intro bs _ hba
      cases bs with
      | nil => rfl
      | cons b bs => exact absurd hba (by simp [charsLe])
  | cons a as ih =>
      intro bs hab hba
      cases bs with
      | nil => exact absurd hab (by simp [charsLe])
      | cons b bs =>
          rw [charsLe_cons_iff] at hab hba
          rcases hab with h1 | ⟨h1, h1'⟩
          · rcases hba with h2 | ⟨h2, _⟩
            · exact absurd (h1.trans h2) (lt_irrefl a)
            · exact absurd (h2 ▸ h1) (lt_irrefl a)
          · rcases hba with h2 | ⟨_, h2'⟩
            · exact absurd (h1 ▸ h2) (lt_irrefl b)
            · rw [h1, ih bs h1' h2']

/-- The descending-by-month comparison used by the sort is total. -/
theorem monthDescLe_total (a b : SmpEntry) :
    (monthLe b.month a.month || monthLe a.month b.month) = true := by
  rw [Bool.or_eq_true]
  exact (charsLe_total b.month.data a.month.data).elim Or.inl Or.inr

/-- The descending-by-month comparison used by the sort is transitive. -/
theorem monthDescLe_trans (a b c : SmpEntry) :
    monthLe b.month a.month = true → monthLe c.month b.month = true →
      monthLe c.month a.month = true :=
  fun h1 h2 => charsLe_trans c.month.data b.month.data a.month.data h2 h1

/-- Two strings below each other in Python string order are equal. -/
theorem monthLe_antisymm {a b : String} (h1 : monthLe a b = true)
    (h2 : monthLe b a = true) : a = b :=
  String.ext (charsLe_antisymm a.data b.data h1 h2)

/-- The update loop leaves the store untouched and reports no match when
no stored month equals the requested one. -/
theorem updateFirst_not_mem (m : String) (v : ℚ) (src : String)
    (data : List SmpEntry) (h : ∀ e ∈ data, e.month ≠ m) :
    updateFirst m v src data = (data, false) := by
  induction data with
  | nil => rfl
  | cons e rest ih =>
      have he : ¬(e.month = m) := h e (List.mem_cons_self e rest)
      have ih' := ih fun x hx => h x (List.mem_cons_of_mem e hx)
      simp [updateFirst, he, ih']

/-- When some stored month equals the requested one, the update loop
replaces exactly the first such entry. -/
theorem updateFirst_mem (m : String) (v : ℚ) (src : String)
    (data : List SmpEntry) (h : ∃ e ∈ data, e.month = m) :
    ∃ pre e post, data = pre ++ e :: post ∧ e.month = m ∧
      (∀ x ∈ pre, x.month ≠ m) ∧
      updateFirst m v src data = (pre ++ ⟨m, v, src⟩ :: post, true) := by
  induction data with
  | nil => simp at h
  | cons a rest ih =>
      by_cases ha : a.month = m
      · exact ⟨[], a, rest, by simp, ha, by simp, by simp [updateFirst, ha]⟩
      · have h' : ∃ e ∈ rest, e.month = m := by
          obtain ⟨e, he, hm⟩ := h
          rcases List.mem_cons.mp he with rfl | hr
          · exact absurd hm ha
          · exact ⟨e, hr, hm⟩
        obtain ⟨pre, e, post, hdecomp, hm, hpre, hupd⟩ := ih h'
        refine ⟨a :: pre, e, post, by simp [hdecomp], hm, ?_, ?_⟩
        · intro x hx
          rcases List.mem_cons.mp hx with rfl | hxp
          · exact ha
          · exact hpre x hxp
        · simp [updateFirst, ha, hupd]

/-- A validation failure returns before the store is touched. -/
theorem add_smp_entry_fail (data : List SmpEntry) (m : String) (v : ℚ)
    (src : String) (h : validMonth m = false ∨ v < 1/20 ∨ 4/5 < v) :
    (add_smp_entry data m v src).1 = data ∧
    (add_smp_entry data m v src).2.isSome = true := by
  by_cases hv : validMonth m = false
  · simp [add_smp_entry, hv]
  · have hrange : v < 1/20 ∨ 4/5 < v := h.resolve_left hv
    rw [add_smp_entry, if_neg hv, if_pos hrange]
    simp

/-- A valid upsert of an absent month appends the new observation. -/
theorem add_smp_entry_success_not_mem (data : List SmpEntry) (m : String)
    (v : ℚ) (src : String) (hv : validMonth m = true) (h1 : 1/20 ≤ v)
    (h2 : v ≤ 4/5) (habs : ∀ e ∈ data, e.month ≠ m) :
    add_smp_entry data m v src = (data ++ [⟨m, v, src⟩], none) := by
  have hv' : ¬(validMonth m = false) := by simp [hv]
  have hrange : ¬(v < 1/20 ∨ 4/5 < v) := by
    push_neg
    exact ⟨h1, h2⟩
  rw [add_smp_entry, if_neg hv', if_neg hrange]
  simp [updateFirst_not_mem m v src data habs]

/-- A valid upsert of a present month overwrites the first matching
observation in place. -/
theorem add_smp_entry_success_mem (data : List SmpEntry) (m : String)
    (v : ℚ) (src : String) (hv : validMonth m = true) (h1 : 1/20 ≤ v)
    (h2 : v ≤ 4/5) (hpres : ∃ e ∈ data, e.month = m) :
    ∃ pre e post, data = pre ++ e :: post ∧ e.month = m ∧
      (∀ x ∈ pre, x.month ≠ m) ∧
      add_smp_entry data m v src = (pre ++ ⟨m, v, src⟩ :: post, none) := by
  have hv' : ¬(validMonth m = false) := by simp [hv]
  have hrange : ¬(v < 1/20 ∨ 4/5 < v) := by
    push_neg
    exact ⟨h1, h2⟩
  obtain ⟨pre, e, post, hdecomp, hm, hpre, hupd⟩ := updateFirst_mem m v src data hpres
  refine ⟨pre, e, post, hdecomp, hm, hpre, ?_⟩
  rw [add_smp_entry, if_neg hv', if_neg hrange]
  simp [hupd]

/-- `get_latest_smp` returns the unique entry carrying the largest stored
month. -/
theorem get_latest_of_max (data : List SmpEntry) (em : SmpEntry)
    (hmem : em ∈ data)
    (huniq : ∀ e ∈ data, e.month = em.month → e = em)
    (hmax : ∀ e ∈ data, monthLe e.month em.month = true) :
    get_latest_smp data = em := by
  have hperm : (sortByMonthDesc data).Perm data :=
    List.mergeSort_perm data fun a b => monthLe b.month a.month
  have hsorted : (sortByMonthDesc data).Pairwise
      (fun a b => monthLe b.month a.month = true) :=
    List.sorted_mergeSort (fun a b c => monthDescLe_trans a b c)
      monthDescLe_total data
  cases hs : sortByMonthDesc data with
  | nil =>
      rw [hs] at hperm
      have hdata : data = [] := hperm.symm.eq_nil
      rw [hdata] at hmem
      simp at hmem
  | cons e0 rest =>
      rw [hs] at hperm hsorted
      have he0r : ∀ x ∈ rest, monthLe x.month e0.month = true :=
        (List.pairwise_cons.mp hsorted).1
      have he0data : e0 ∈ data := hperm.mem_iff.mp (List.mem_cons_self e0 rest)
      have hem_sorted : em ∈ e0 :: rest := hperm.mem_iff.mpr hmem
      rcases List.mem_cons.mp hem_sorted with heq | hr
      · simp [get_latest_smp, hs]
        exact heq.symm
      · have h1 : monthLe em.month e0.month = true := he0r em hr
        have h2 : monthLe e0.month em.month = true := hmax e0 he0data
        have hmeq : e0.month = em.month := monthLe_antisymm h2 h1
        have he0em : e0 = em := huniq e0 he0data hmeq
        simp [get_latest_smp, hs]
        exact he0em

/-- Claim C4: an upsert with an invalid month token or a price outside
[0.05, 0.80] raises and leaves the stored collection completely
unchanged; a valid request succeeds, appending a new observation when the
month is absent and overwriting exactly the first stored observation of
that month when present. -/
theorem C4_upsert (data : List SmpEntry) (month_str : String) (smp : ℚ)
    (src : String) :
    ((validMonth month_str = false ∨ smp < 1/20 ∨ 4/5 < smp) →
      (add_smp_entry data month_str smp src).1 = data ∧
      (add_smp_entry data month_str smp src).2.isSome = true) ∧
    (validMonth month_str = true → 1/20 ≤ smp → smp ≤ 4/5 →
      (add_smp_entry data month_str smp src).2 = none ∧
      ((∀ e ∈ data, e.month ≠ month_str) →
        (add_smp_entry data month_str smp src).1 = data ++ [⟨month_str, smp, src⟩]) ∧
      ((∃ e ∈ data, e.month = month_str) →
        ∃ pre e post, data = pre ++ e :: post ∧ e.month = month_str ∧
          (∀ x ∈ pre, x.month ≠ month_str) ∧
          (add_smp_entry data month_str smp src).1 =
            pre ++ ⟨month_str, smp, src⟩ :: post)) := by
  refine ⟨add_smp_entry_fail data month_str smp src, ?_⟩
  intro hv h1 h2
  refine ⟨?_, ?_, ?_⟩
  · by_cases hmem : ∃ e ∈ data, e.month = month_str
    · obtain ⟨pre, e, post, _, _, _, hadd⟩ :=
        add_smp_entry_success_mem data month_str smp src hv h1 h2 hmem
      rw [hadd]
    · push_neg at hmem
      rw [add_smp_entry_success_not_mem data month_str smp src hv h1 h2 hmem]
  · intro habs
    rw [add_smp_entry_success_not_mem data month_str smp src hv h1 h2 habs]
  · intro hmem
    obtain ⟨pre, e, post, hdec, hm, hpre, hadd⟩ :=
      add_smp_entry_success_mem data month_str smp src hv h1 h2 hmem
    exact ⟨pre, e, post, hdec, hm, hpre, by rw [hadd]⟩

/-- Witness for C4: upserting March 2026 at RM 0.22 into the one-entry
store succeeds and appends; its hypotheses hold concretely. -/
theorem C4_upsert_witness :
    (add_smp_entry store0 "2026-03" (11/50) "singlebuyer").2 = none ∧
    (add_smp_entry store0 "2026-03" (11/50) "singlebuyer").1 =
      store0 ++ [⟨"2026-03", 11/50, "singlebuyer"⟩] := by
  have h := (C4_upsert store0 "2026-03" (11/50) "singlebuyer").2
    (by decide) (by norm_num) (by norm_num)
  exact ⟨h.1, h.2.1 (by decide)⟩

/-- Counterexample for C5: the claim premises hold for the valid pair
(2025-01, RM 0.21), yet after upserting it into a store holding February
2026 the single most recent observation is the February 2026 one, not the
upserted pair. -/
theorem C5_counterexample :
    validMonth "2025-01" = true ∧ (1/20 : ℚ) ≤ 21/100 ∧ (21/100 : ℚ) ≤ 4/5 ∧
    (get_latest_smp (add_smp_entry store0 "2025-01" (21/100) "singlebuyer").1).month =
      "2026-02" ∧
    (get_latest_smp (add_smp_entry store0 "2025-01" (21/100) "singlebuyer").1).smp =
      109/500 ∧
    (109 : ℚ)/500 ≠ 21/100 ∧ ("2026-02" : String) ≠ "2025-01" := by
  have hadd : add_smp_entry store0 "2025-01" (21/100) "singlebuyer" =
      (store0 ++ [⟨"2025-01", 21/100, "singlebuyer"⟩], none) :=
    add_smp_entry_success_not_mem store0 "2025-01" (21/100) "singlebuyer"
      (by decide) (by norm_num) (by norm_num) (by decide)
  have hsort : sortByMonthDesc (store0 ++ [⟨"2025-01", 21/100, "singlebuyer"⟩]) =
      [⟨"2026-02", 109/500, "estimated"⟩, ⟨"2025-01", 21/100, "singlebuyer"⟩] := by
    simp [sortByMonthDesc, store0, List.mergeSort, List.merge, monthLe, charsLe]
  have hlatest : get_latest_smp (add_smp_entry store0 "2025-01" (21/100) "singlebuyer").1 =
      ⟨"2026-02", 109/500, "estimated"⟩ := by
    rw [hadd]
    simp [get_latest_smp, hsort]
  refine ⟨by decide, by norm_num, by norm_num, ?_, ?_, by norm_num, by decide⟩
  · rw [hlatest]
  · rw [hlatest]

/-- Claim C5 (amended): for a store with pairwise-distinct months (the
invariant the tool maintains), upserting a valid pair whose month is at
least every stored month makes the single most recent observation exactly
that pair. -/
theorem C5_upsert_window (data : List SmpEntry) (month_str : String)
    (smp : ℚ) (src : String)
    (hnodup : (data.map SmpEntry.month).Nodup)
    (hv : validMonth month_str = true) (h1 : 1/20 ≤ smp) (h2 : smp ≤ 4/5)
    (hmax : ∀ e ∈ data, monthLe e.month month_str = true) :
    (get_latest_smp (add_smp_entry data month_str smp src).1).month = month_str ∧
    (get_latest_smp (add_smp_entry data month_str smp src).1).smp = smp := by
  by_cases hmem : ∃ e ∈ data, e.month = month_str
  · obtain ⟨pre, e, post, hdec, hm, hpre, hadd⟩ :=
      add_smp_entry_success_mem data month_str smp src hv h1 h2 hmem
    have hfst : (add_smp_entry data month_str smp src).1 =
        pre ++ (⟨month_str, smp, src⟩ : SmpEntry) :: post := by rw [hadd]
    have hmem' : (⟨month_str, smp, src⟩ : SmpEntry) ∈
        pre ++ (⟨month_str, smp, src⟩ : SmpEntry) :: post := by simp
    have hmax' : ∀ x ∈ pre ++ (⟨month_str, smp, src⟩ : SmpEntry) :: post,
        monthLe x.month month_str = true := by
      intro x hx
      rcases List.mem_append.mp hx with hxp | hxc
      · exact hmax x (by rw [hdec]; exact List.mem_append.mpr (Or.inl hxp))
      · rcases List.mem_cons.mp hxc with rfl | hxq
        · exact charsLe_refl _
        · exact hmax x (by rw [hdec]; simp [hxq])
    have hnotin : month_str ∉ pre.map SmpEntry.month ∧
        month_str ∉ post.map SmpEntry.month := by
      have hmaps : data.map SmpEntry.month =
          pre.map SmpEntry.month ++ e.month :: post.map SmpEntry.month := by
        rw [hdec]; simp
      have hnodup2 : (pre.map SmpEntry.month ++
          e.month :: post.map SmpEntry.month).Nodup := hmaps ▸ hnodup
      have hcons := List.nodup_middle.mp hnodup2
      have hhead := (List.nodup_cons.mp hcons).1
      rw [hm] at hhead
      exact ⟨fun hc => hhead (List.mem_append.mpr (Or.inl hc)),
             fun hc => hhead (List.mem_append.mpr (Or.inr hc))⟩
    have huniq' : ∀ x ∈ pre ++ (⟨month_str, smp, src⟩ : SmpEntry) :: post,
        x.month = month_str → x = ⟨month_str, smp, src⟩ := by
      intro x hx hxm
      rcases List.mem_append.mp hx with hxp | hxc
      · exact absurd (hxm ▸ List.mem_map_of_mem SmpEntry.month hxp) hnotin.1
      · rcases List.mem_cons.mp hxc with rfl | hxq
        · rfl
        · exact absurd (hxm ▸ List.mem_map_of_mem SmpEntry.month hxq) hnotin.2
    rw [hfst, get_latest_of_max _ ⟨month_str, smp, src⟩ hmem' huniq' hmax']
    exact ⟨rfl, rfl⟩
  · push_neg at hmem
    have hadd := add_smp_entry_success_not_mem data month_str smp src hv h1 h2 hmem
    have hfst : (add_smp_entry data month_str smp src).1 =
        data ++ [(⟨month_str, smp, src⟩ : SmpEntry)] := by rw [hadd]
    have hmem' : (⟨month_str, smp, src⟩ : SmpEntry) ∈
        data ++ [(⟨month_str, smp, src⟩ : SmpEntry)] := by simp
    have hmax' : ∀ x ∈ data ++ [(⟨month_str, smp, src⟩ : SmpEntry)],
        monthLe x.month month_str = true := by
      intro x hx
      rcases List.mem_append.mp hx with hxd | hxn
      · exact hmax x hxd
      · simp at hxn
        rw [hxn]
        exact charsLe_refl _
    have huniq' : ∀ x ∈ data ++ [(⟨month_str, smp, src⟩ : SmpEntry)],
        x.month = month_str → x = ⟨month_str, smp, src⟩ := by
      intro x hx hxm
      rcases List.mem_append.mp hx with hxd | hxn
      · exact absurd hxm (hmem x hxd)
      · simpa using hxn
    rw [hfst, get_latest_of_max _ ⟨month_str, smp, src⟩ hmem' huniq' hmax']
    exact ⟨rfl, rfl⟩

/-- Witness for C5: upserting March 2026 at RM 0.22 (a month above every
stored month) into the one-entry store makes it the most recent
observation. -/
theorem C5_upsert_window_witness :
    (get_latest_smp (add_smp_entry store0 "2026-03" (11/50) "singlebuyer").1).month =
      "2026-03" ∧
    (get_latest_smp (add_smp_entry store0 "2026-03" (11/50) "singlebuyer").1).smp =
      11/50 :=
  C5_upsert_window store0 "2026-03" (11/50) "singlebuyer" (by decide) (by decide)
    (by norm_num) (by norm_num) (by decide)

/-- Witness for C2: the cashflow facts instantiated at the demo facility,
whose base-case annual savings RM 111,820.8 are positive. -/
theorem C2_cashflow_witness :
    (cashflowPoints PROSPECT).length = 26 ∧
    cumulativeCashflow PROSPECT 0 = -PROSPECT.capex_mid ∧
    cumulativeCashflow PROSPECT 5 = cumulativeCashflow PROSPECT 4 +
      baseCaseAnnualSavings PROSPECT * (1 - degradationRate) ^ 4 ∧
    cumulativeCashflow PROSPECT 0 ≤ cumulativeCashflow PROSPECT 1 := by
  have h := C2_cashflow PROSPECT rfl
  have hpos : 0 < baseCaseAnnualSavings PROSPECT := by
    norm_num [baseCaseAnnualSavings, PROSPECT]
  exact ⟨h.1, h.2.1, h.2.2.1 5 (by norm_num) (by norm_num),
         h.2.2.2 hpos 0 (by norm_num)⟩
